import Mathlib

/-!
Shallow embedding of the scene-detection core of `video-scene-detector`
(`src/services/sceneDetector.js` and the FFmpeg service `detectScenesFFmpeg`),
with theorems settling the frozen claims about it.

Conventions:
* frame indices and exit codes are `Int`; timestamps, fps and thresholds are `ℚ`
  (the JS numbers relevant to the claims are used on exact values there);
* `Math.round x = ⌊x + 1/2⌋` is Mathlib's `round`;
* `x.toFixed(3)` followed by `parseFloat` (round to millisecond precision) is
  modelled by `round3`;
* a JS optional / possibly-falsy numeric argument is an `Option`; the JS idiom
  `v || d` on numbers is `jsOrDefault` (`0` and an absent value both give `d`).
-/

namespace SceneDetector

/-- `FrameRange` as returned by `calculateFrameRange`. -/
structure FrameRange where
  start_frame : Int
  end_frame : Int
  frame_count : Int
  deriving Repr, DecidableEq

/-- Embedding of `calculateFrameRange(startFrame, endFrame, offset, length, totalFrames)`
from `src/services/sceneDetector.js` (lines 167–191).  The JS guard
`length && length > 0` is false when `length` is absent (`none`), zero, or
non-positive. -/
def calculateFrameRange (startFrame endFrame offset : Int) (length : Option Int)
    (totalFrames : Int) : FrameRange :=
  -- Apply offset
  let newStart := startFrame + offset
  let newEnd := endFrame + offset
  -- Apply length constraint if specified
  let newEnd := match length with
    | some l => if 0 < l then newStart + l - 1 else newEnd
    | none => newEnd
  -- Clamp to valid range
  let newStart := max 1 newStart
  let newEnd := min totalFrames newEnd
  -- Ensure start <= end
  let newEnd := if newEnd < newStart then newStart else newEnd
  { start_frame := newStart, end_frame := newEnd, frame_count := newEnd - newStart + 1 }

/-- Reference definition of the range computation, written from the spec's words
(§4.3 FrameRangeCalculator): `newStart = start + offset`; if a length is provided
and > 0 then `newEnd = newStart + length − 1`, otherwise
`newEnd = newStart + (end_frame − start_frame)`; clamp `newStart ≥ 1`,
`newEnd ≤ totalFrames`; collapse to a single frame at `newStart` if inverted. -/
def computeRangeSpec (startFrame endFrame offset : Int) (length : Option Int)
    (totalFrames : Int) : FrameRange :=
  let newStart := startFrame + offset
  let newEnd := match length with
    | some l => if 0 < l then newStart + l - 1 else newStart + (endFrame - startFrame)
    | none => newStart + (endFrame - startFrame)
  let newStart := max 1 newStart
  let newEnd := min totalFrames newEnd
  let newEnd := if newEnd < newStart then newStart else newEnd
  { start_frame := newStart, end_frame := newEnd, frame_count := newEnd - newStart + 1 }

/-- Result record of `validateFrameRange`. -/
structure ValidationResult where
  valid : Bool
  errors : List String
  frameCount : Int
  deriving Repr, DecidableEq

def errStartPositive : String := "Start frame must be a positive integer"
def errEndPositive : String := "End frame must be a positive integer"
def errStartLeEnd : String := "Start frame must be less than or equal to end frame"
def errEndExceedsTotal (totalFrames : Int) : String :=
  "End frame cannot exceed total frames (" ++ toString totalFrames ++ ")"
def errTooManyFrames : String := "Cannot extract more than 1000 frames at once"

/-- Embedding of `validateFrameRange(startFrame, endFrame, totalFrames)` from
`src/services/sceneDetector.js` (lines 127–156).  Inputs are `Int`, so the JS
`Number.isInteger` part of the first two checks always holds and only the
positivity part remains.  Each check appends its message independently
(no short-circuit), and `valid` is `errors.length === 0`. -/
def validateFrameRange (startFrame endFrame totalFrames : Int) : ValidationResult :=
  let errors : List String :=
    (if startFrame < 1 then [errStartPositive] else []) ++
    (if endFrame < 1 then [errEndPositive] else []) ++
    (if endFrame < startFrame then [errStartLeEnd] else []) ++
    (if totalFrames < endFrame then [errEndExceedsTotal totalFrames] else []) ++
    (if 1000 < endFrame - startFrame + 1 then [errTooManyFrames] else [])
  { valid := errors.isEmpty, errors := errors, frameCount := endFrame - startFrame + 1 }

/-- The JS idiom `value || default` on an optional numeric option: an absent
value and the falsy number `0` both select the default. -/
def jsOrDefault (v : Option ℚ) (d : ℚ) : ℚ :=
  match v with
  | none => d
  | some x => if x = 0 then d else x

def DEFAULT_MIN_SCENE_LENGTH : ℚ := 1

/-- Embedding of the `minSceneLength` normalization in `detectScenes`
(`src/services/sceneDetector.js` lines 20–28): default via `||`, frame-count
reinterpretation when the value exceeds 300, then clamp to `[0.5, 60]`. -/
def normalizeMinSceneLength (minSceneLength : Option ℚ) (fps : ℚ) : ℚ :=
  let m := jsOrDefault minSceneLength DEFAULT_MIN_SCENE_LENGTH
  let m := if 300 < m then m / fps else m
  max (1/2) (min 60 m)

/-- `VideoInfo` as produced by `getVideoInfo` in the FFmpeg service. -/
structure VideoInfo where
  duration : ℚ
  fps : ℚ
  width : Int
  height : Int
  total_frames : Int
  deriving Repr, DecidableEq

/-- A scene as assembled inside the detectors, before any post-processing
(plain JS object with numeric fields). -/
structure RawScene where
  start_frame : ℚ
  end_frame : ℚ
  start_time : ℚ
  end_time : ℚ
  deriving Repr, DecidableEq

/-- A scene as returned to the caller of `detectScenes`. -/
structure Scene where
  scene_number : Int
  start_frame : Int
  end_frame : Int
  start_time : ℚ
  end_time : ℚ
  duration : ℚ
  deriving Repr, DecidableEq

/-- `parseFloat(x.toFixed(3))`: round to millisecond precision
(nearest thousandth). -/
def round3 (q : ℚ) : ℚ := (round (q * 1000) : Int) / 1000

/-- One sample of the per-analyzed-frame content-difference signal consumed by
the FFmpeg fallback detector: the frame's presentation time and its
content-difference (`scene`) score.  `ffmpeg -vf select='gt(scene,t)',showinfo`
emits a `pts_time` line exactly for the samples whose score exceeds `t`. -/
structure SignalSample where
  ptsTime : ℚ
  score : ℚ
  deriving Repr, DecidableEq

/-- The per-line body of `detectScenesFFmpeg`'s stderr handler
(`src/unnamed/part_003`, ffmpeg service, lines 174–192), iterated over the
signal stream: a sample whose score exceeds `threshold` is a reported frame;
its frame number is `round(pts_time × fps)`; when it is at least
`minSceneLength` frames past the last boundary, the current scene is closed at
that frame and the next opens one frame later.  Returns the accumulated scenes
and the final `lastSceneFrame`. -/
def ffmpegLoop (threshold : ℚ) (minSceneLength : Int) (fps : ℚ) :
    Int → List RawScene → List SignalSample → List RawScene × Int
  | lastSceneFrame, scenes, [] => (scenes, lastSceneFrame)
  | lastSceneFrame, scenes, s :: rest =>
    if threshold < s.score then
      let frameNum : Int := round (s.ptsTime * fps)
      if minSceneLength ≤ frameNum - lastSceneFrame then
        ffmpegLoop threshold minSceneLength fps (frameNum + 1)
          (scenes ++ [{ start_frame := (lastSceneFrame : ℚ), end_frame := (frameNum : ℚ),
                        start_time := ((lastSceneFrame : ℚ) - 1) / fps, end_time := s.ptsTime }])
          rest
      else ffmpegLoop threshold minSceneLength fps lastSceneFrame scenes rest
    else ffmpegLoop threshold minSceneLength fps lastSceneFrame scenes rest

/-- Embedding of `detectScenesFFmpeg(inputPath, threshold, minSceneLength, fps)`
(`src/unnamed/part_003`, lines 165–216): run the stderr loop from
`lastSceneFrame = 1`, then append a trailing scene to `total_frames` unless it
would be shorter than `minSceneLength / 2` (float division) while at least one
scene already exists. -/
def detectScenesFFmpeg (threshold : ℚ) (minSceneLength : Int) (fps : ℚ)
    (signal : List SignalSample) (info : VideoInfo) : List RawScene :=
  let r := ffmpegLoop threshold minSceneLength fps 1 [] signal
  let scenes := r.1
  let lastSceneFrame := r.2
  if (minSceneLength : ℚ) / 2 ≤ ((info.total_frames - lastSceneFrame : Int) : ℚ) ∨ scenes = [] then
    scenes ++ [{ start_frame := (lastSceneFrame : ℚ), end_frame := (info.total_frames : ℚ),
                 start_time := ((lastSceneFrame : ℚ) - 1) / fps, end_time := info.duration }]
  else scenes

/-- The per-scene body of the `scenes.map((scene, index) => ...)` post-processing
step in `fallbackDetectScenes` (`src/services/sceneDetector.js` lines 110–117). -/
def postProcessScene (info : VideoInfo) (index : Nat) (s : RawScene) : Scene :=
  { scene_number := (index : Int) + 1
  , start_frame := max 1 (round s.start_frame)
  , end_frame := min info.total_frames (round s.end_frame)
  , start_time := max 0 (round3 s.start_time)
  , end_time := min info.duration (round3 s.end_time)
  , duration := round3 (s.end_time - s.start_time) }

/-- `scenes.map((scene, index) => ...)`: apply `postProcessScene` with the
running index. -/
def postProcessAll (info : VideoInfo) : Nat → List RawScene → List Scene
  | _, [] => []
  | index, s :: rest => postProcessScene info index s :: postProcessAll info (index + 1) rest

/-- Embedding of `fallbackDetectScenes(inputPath, minSceneLengthSec, fps)`
(`src/services/sceneDetector.js` lines 101–118): convert the minimum length to
frames, call `detectScenesFFmpeg` with the fixed threshold `0.3`, and
post-process every resulting scene. -/
def fallbackDetectScenes (minSceneLengthSec fps : ℚ) (signal : List SignalSample)
    (info : VideoInfo) : List Scene :=
  let minSceneLengthFrames : Int := round (minSceneLengthSec * fps)
  let scenes := detectScenesFFmpeg (3/10) minSceneLengthFrames fps signal info
  postProcessAll info 0 scenes

/-- `DEFAULT_THRESHOLD` from `src/services/sceneDetector.js` line 6: the
sensitivity threshold handed to the primary detector when the caller supplies
none (0–255 scale, lower is more sensitive). -/
def DEFAULT_THRESHOLD : ℚ := 20

/-- The threshold the orchestrator works with
(`src/services/sceneDetector.js` line 31): `options.threshold || DEFAULT_THRESHOLD`. -/
def orchestratorThreshold (threshold : Option ℚ) : ℚ :=
  jsOrDefault threshold DEFAULT_THRESHOLD

/-- The parsed JSON body of the primary (Python) detector's stdout.
`error := some e` models a truthy `result.error` field; `scenes := none`
models an absent / falsy `result.scenes`. -/
structure ParsedBody where
  error : Option String
  scenes : Option (List Scene)
  deriving Repr, DecidableEq

/-- Outcome of running the primary detector process: the spawn itself may fail
(`'error'` event), or the process closes with an exit code and stdout that
either fails `JSON.parse` (`none`) or parses to a `ParsedBody`. -/
inductive PrimaryOutcome where
  | spawnFailure : PrimaryOutcome
  | exit : Int → Option ParsedBody → PrimaryOutcome
  deriving Repr, DecidableEq

/-- Embedding of the control flow of `detectScenes`
(`src/services/sceneDetector.js` lines 35–95), with the primary process
outcome and the result of the fallback path as inputs: a non-zero exit code,
unparseable stdout, or a truthy `result.error` each discard the primary output
and resolve or reject with the fallback's result; the spawn-failure event does
the same; on success the promise resolves with `result.scenes || []` as is. -/
def detectScenesFromOutcome (primary : PrimaryOutcome)
    (fallback : Except String (List Scene)) : Except String (List Scene) :=
  match primary with
  | .spawnFailure => fallback
  | .exit code parsed =>
    if code ≠ 0 then fallback
    else match parsed with
      | none => fallback
      | some body =>
        match body.error with
        | some _ => fallback
        | none => .ok (body.scenes.getD [])

/-- A scene interval is well formed: it does not end before it starts. -/
def sceneOrdered (s : RawScene) : Bool := decide (s.start_frame ≤ s.end_frame)

/-- The list is non-empty and its first scene starts at frame 1. -/
def startsAtOne : List RawScene → Bool
  | [] => false
  | s :: _ => s.start_frame == 1

/-- Each scene after the first starts exactly one frame after its
predecessor ends. -/
def contiguous : List RawScene → Bool
  | a :: b :: rest => (b.start_frame == a.end_frame + 1) && contiguous (b :: rest)
  | _ => true

/-! ## Helper lemmas -/

lemma contiguous_concat (l : List RawScene) (x : RawScene)
    (hl : contiguous l = true)
    (hlink : ∀ y, l.getLast? = some y → x.start_frame = y.end_frame + 1) :
    contiguous (l ++ [x]) = true := by
  induction l with
  | nil => simp [contiguous]
  | cons a t ih =>
    cases t with
    | nil =>
      have hx := hlink a rfl
      simp [contiguous, hx]
    | cons b t' =>
      simp only [contiguous, Bool.and_eq_true] at hl
      simp only [List.cons_append, contiguous, Bool.and_eq_true]
      refine ⟨?_, ?_⟩
      · simp only [List.cons_append] at *
        exact hl.1
      · have := ih hl.2 (fun y hy => hlink y (by rw [List.getLast?_cons_cons]; exact hy))
        simpa [List.cons_append] using this

lemma startsAtOne_concat (l : List RawScene) (x : RawScene) (h : startsAtOne l = true) :
    startsAtOne (l ++ [x]) = true := by
  cases l with
  | nil => simp [startsAtOne] at h
  | cons a t => simpa [startsAtOne] using h

/-- Invariant of the stderr-parsing loop of `detectScenesFFmpeg`: starting from
a state whose accumulated scene list begins at frame 1 (or is empty with
`lastSceneFrame = 1`), is contiguous, is well formed, and whose last scene ends
exactly one frame before `lastSceneFrame`, the loop preserves all of that for
any remaining signal, provided the minimum scene length is non-negative. -/
lemma ffmpegLoop_inv (th : ℚ) (minLen : Int) (fps : ℚ) (hmin : 0 ≤ minLen) :
    ∀ (signal : List SignalSample) (last : Int) (acc : List RawScene),
      1 ≤ last →
      (acc = [] → last = 1) →
      (acc ≠ [] → startsAtOne acc = true) →
      contiguous acc = true →
      acc.all sceneOrdered = true →
      (∀ x, acc.getLast? = some x → x.end_frame = (last : ℚ) - 1) →
      1 ≤ (ffmpegLoop th minLen fps last acc signal).2 ∧
      ((ffmpegLoop th minLen fps last acc signal).1 = [] →
        (ffmpegLoop th minLen fps last acc signal).2 = 1) ∧
      ((ffmpegLoop th minLen fps last acc signal).1 ≠ [] →
        startsAtOne (ffmpegLoop th minLen fps last acc signal).1 = true) ∧
      contiguous (ffmpegLoop th minLen fps last acc signal).1 = true ∧
      (ffmpegLoop th minLen fps last acc signal).1.all sceneOrdered = true ∧
      (∀ x, (ffmpegLoop th minLen fps last acc signal).1.getLast? = some x →
        x.end_frame = ((ffmpegLoop th minLen fps last acc signal).2 : ℚ) - 1) := by
  intro signal
  induction signal with
  | nil =>
    intro last acc h1 h2 h3 h4 h5 h6
    simp only [ffmpegLoop]
    exact ⟨h1, h2, h3, h4, h5, h6⟩
  | cons s rest ih =>
    intro last acc h1 h2 h3 h4 h5 h6
    by_cases hsc : th < s.score
    · simp only [ffmpegLoop, if_pos hsc]
      by_cases hlen : minLen ≤ round (s.ptsTime * fps) - last
      · simp only [if_pos hlen]
        set F : Int := round (s.ptsTime * fps) with hF
        set x : RawScene :=
          { start_frame := (last : ℚ), end_frame := (F : ℚ),
            start_time := ((last : ℚ) - 1) / fps, end_time := s.ptsTime } with hxdef
        apply ih (F + 1) (acc ++ [x])
        · omega
        · intro hnil
          exact absurd hnil (by simp)
        · intro _
          cases acc with
          | nil =>
            have hlast1 : last = 1 := h2 rfl
            simp [startsAtOne, hxdef, hlast1]
          | cons a t =>
            exact startsAtOne_concat _ _ (h3 (by simp))
        · apply contiguous_concat _ _ h4
          intro y hy
          have := h6 y hy
          rw [hxdef]
          simp only
          rw [this]
          ring
        · rw [List.all_append, Bool.and_eq_true]
          refine ⟨h5, ?_⟩
          have hle : (last : ℚ) ≤ (F : ℚ) := by
            exact_mod_cast (show last ≤ F by omega)
          simp [sceneOrdered, hxdef, hle]
        · intro y hy
          rw [List.getLast?_concat] at hy
          injection hy with hyx
          rw [← hyx, hxdef]
          push_cast
          ring
      · simp only [if_neg hlen]
        exact ih last acc h1 h2 h3 h4 h5 h6
    · simp only [ffmpegLoop, if_neg hsc]
      exact ih last acc h1 h2 h3 h4 h5 h6

/-! ## Claims -/

/-- C1 (counterexample): for the valid input scene `[1, 1]` in a 10-frame video
with offset `100` and no length — which satisfies every hypothesis of the
claim — `calculateFrameRange` returns `{start: 101, end: 101}`, whose
`end_frame` exceeds `totalFrames = 10`: the final collapse step can undo the
upper clamp, so the result can be invalid. -/
theorem calculateFrameRange_clamp_undone :
    (1 ≤ (1 : Int) ∧ (1 : Int) ≤ 1 ∧ (1 : Int) ≤ 10 ∧ 1 ≤ (10 : Int)) ∧
    calculateFrameRange 1 1 100 none 10 = ⟨101, 101, 1⟩ ∧
    ¬((calculateFrameRange 1 1 100 none 10).end_frame ≤ 10) := by decide

/-- C1 (amended): for an input scene with `1 ≤ start ≤ end ≤ totalFrames`, any
offset and any length, the result of `calculateFrameRange` always satisfies
`1 ≤ start_frame`, `start_frame ≤ end_frame` and
`frame_count = end_frame − start_frame + 1`; but `end_frame ≤ totalFrames`
holds exactly when the offset does not push the new start past the end of the
video (`start_frame + offset ≤ totalFrames`). -/
theorem calculateFrameRange_invariants (s e o : Int) (l : Option Int) (T : Int)
    (hs : 1 ≤ s) (hse : s ≤ e) (heT : e ≤ T) :
    1 ≤ (calculateFrameRange s e o l T).start_frame ∧
    (calculateFrameRange s e o l T).start_frame ≤ (calculateFrameRange s e o l T).end_frame ∧
    (calculateFrameRange s e o l T).frame_count
      = (calculateFrameRange s e o l T).end_frame - (calculateFrameRange s e o l T).start_frame + 1 ∧
    ((calculateFrameRange s e o l T).end_frame ≤ T ↔ s + o ≤ T) := by
  cases l with
  | none =>
    simp only [calculateFrameRange]
    split_ifs <;> simp_all
    omega
  | some v =>
    simp only [calculateFrameRange]
    split_ifs <;> simp_all <;> omega

/-- Witness for C1's amended theorem, at scene `[100, 340]`, offset `−50`, no
length, 500 total frames. -/
theorem calculateFrameRange_invariants_witness :
    1 ≤ (calculateFrameRange 100 340 (-50) none 500).start_frame ∧
    (calculateFrameRange 100 340 (-50) none 500).start_frame
      ≤ (calculateFrameRange 100 340 (-50) none 500).end_frame ∧
    (calculateFrameRange 100 340 (-50) none 500).frame_count
      = (calculateFrameRange 100 340 (-50) none 500).end_frame
        - (calculateFrameRange 100 340 (-50) none 500).start_frame + 1 ∧
    ((calculateFrameRange 100 340 (-50) none 500).end_frame ≤ 500 ↔ (100 : Int) + -50 ≤ 500) :=
  calculateFrameRange_invariants 100 340 (-50) none 500 (by decide) (by decide) (by decide)

/-- C2: `calculateFrameRange` coincides with the spec's reference definition
`computeRangeSpec` (offset first, then length − with the original span kept
when no positive length is given −, then clamping, then the single-frame
collapse) on all inputs; in particular scene `[100, 340]` with offset `−50`
and no length gives `[50, 290]`, and with offset `0` and length `50` gives
`[100, 149]`. -/
theorem calculateFrameRange_matches_spec :
    (∀ s e o l T, calculateFrameRange s e o l T = computeRangeSpec s e o l T) ∧
    calculateFrameRange 100 340 (-50) none 1000 = ⟨50, 290, 241⟩ ∧
    calculateFrameRange 100 340 0 (some 50) 1000 = ⟨100, 149, 50⟩ := by
  refine ⟨?_, by decide, by decide⟩
  intro s e o l T
  cases l with
  | none =>
    have h : s + o + (e - s) = e + o := by ring
    simp only [calculateFrameRange, computeRangeSpec, h]
  | some v =>
    by_cases h0 : 0 < v
    · simp only [calculateFrameRange, computeRangeSpec, if_pos h0]
    · have h : s + o + (e - s) = e + o := by ring
      simp only [calculateFrameRange, computeRangeSpec, if_neg h0, h]

/-- C7: `validateFrameRange` evaluates all checks (each violated rule's message
is in the error list), `valid` holds exactly when the errors list is empty,
which happens exactly when start and end are positive, `start ≤ end`,
`end ≤ totalFrames`, and the range has at most 1000 frames; `frameCount` is
always `end − start + 1`; and `validateFrameRange 500 100 1000` is invalid
with the start ≤ end violation reported. -/
theorem validateFrameRange_spec :
    (∀ s e T, (validateFrameRange s e T).valid = true ↔
      (1 ≤ s ∧ 1 ≤ e ∧ s ≤ e ∧ e ≤ T ∧ e - s + 1 ≤ 1000)) ∧
    (∀ s e T, (validateFrameRange s e T).valid = true ↔ (validateFrameRange s e T).errors = []) ∧
    (∀ s e T, (validateFrameRange s e T).frameCount = e - s + 1) ∧
    (∀ s e T, s < 1 → errStartPositive ∈ (validateFrameRange s e T).errors) ∧
    (∀ s e T, e < 1 → errEndPositive ∈ (validateFrameRange s e T).errors) ∧
    (∀ s e T, e < s → errStartLeEnd ∈ (validateFrameRange s e T).errors) ∧
    (∀ s e T, T < e → errEndExceedsTotal T ∈ (validateFrameRange s e T).errors) ∧
    (∀ s e T, 1000 < e - s + 1 → errTooManyFrames ∈ (validateFrameRange s e T).errors) ∧
    ((validateFrameRange 500 100 1000).valid = false ∧
      errStartLeEnd ∈ (validateFrameRange 500 100 1000).errors) := by
  refine ⟨?_, ?_, fun s e T => rfl, ?_, ?_, ?_, ?_, ?_, by decide⟩
  · intro s e T
    simp only [validateFrameRange, List.isEmpty_iff, List.append_eq_nil]
    split_ifs <;> simp_all
  · intro s e T
    simp only [validateFrameRange, List.isEmpty_iff]
  · intro s e T h
    simp only [validateFrameRange, List.mem_append, List.mem_singleton]
    split_ifs <;> simp_all
  · intro s e T h
    simp only [validateFrameRange, List.mem_append, List.mem_singleton]
    split_ifs <;> simp_all
  · intro s e T h
    simp only [validateFrameRange, List.mem_append, List.mem_singleton]
    split_ifs <;> simp_all
  · intro s e T h
    simp only [validateFrameRange, List.mem_append, List.mem_singleton]
    split_ifs <;> simp_all
  · intro s e T h
    simp only [validateFrameRange, List.mem_append, List.mem_singleton]
    split_ifs <;> simp_all

/-- Witness for C7, applying the start ≤ end violation clause at
`validateFrameRange 500 100 1000`. -/
theorem validateFrameRange_spec_witness :
    errStartLeEnd ∈ (validateFrameRange 500 100 1000).errors :=
  validateFrameRange_spec.2.2.2.2.2.1 500 100 1000 (by decide)

/-- C6: the `minSceneLength` normalization of `detectScenes`: a supplied value
above 300 is reinterpreted as a frame count and divided by fps before the
clamp to `[0.5, 60]`; a value in `(0, 300]` is only clamped; `450` at
`fps = 30` normalizes to `15` seconds and `0.2` to `0.5` seconds. -/
theorem minSceneLength_normalization :
    (∀ v fps, 300 < v →
      normalizeMinSceneLength (some v) fps = max (1/2) (min 60 (v / fps))) ∧
    (∀ v fps, v ≠ 0 → v ≤ 300 →
      normalizeMinSceneLength (some v) fps = max (1/2) (min 60 v)) ∧
    normalizeMinSceneLength (some 450) 30 = 15 ∧
    normalizeMinSceneLength (some (1/5)) 30 = 1/2 := by
  refine ⟨?_, ?_, ?_, ?_⟩
  · intro v fps h
    have hv : ¬(v = 0) := by intro h0; rw [h0] at h; norm_num at h
    simp only [normalizeMinSceneLength, jsOrDefault, if_neg hv, if_pos h]
  · intro v fps hv h
    simp only [normalizeMinSceneLength, jsOrDefault, if_neg hv, if_neg (not_lt.mpr h)]
  · norm_num [normalizeMinSceneLength, jsOrDefault, DEFAULT_MIN_SCENE_LENGTH]
  · norm_num [normalizeMinSceneLength, jsOrDefault, DEFAULT_MIN_SCENE_LENGTH]

/-- Witness for C6, applying the frame-count reinterpretation clause at the
supplied value 450 and fps 30. -/
theorem minSceneLength_normalization_witness :
    normalizeMinSceneLength (some 450) 30 = max (1/2) (min 60 (450 / 30)) :=
  minSceneLength_normalization.1 450 30 (by norm_num)

/-- C10: supplying `minSceneLength = 0` behaves exactly like omitting the
option — the `||` default applies — and the default normalizes to the full
1.0 seconds (not to the 0.5 clamp floor), for every fps. -/
theorem minSceneLength_zero_uses_default :
    (∀ fps, normalizeMinSceneLength (some 0) fps = normalizeMinSceneLength none fps) ∧
    (∀ fps, normalizeMinSceneLength none fps = DEFAULT_MIN_SCENE_LENGTH) ∧
    DEFAULT_MIN_SCENE_LENGTH = 1 := by
  refine ⟨fun fps => by simp [normalizeMinSceneLength, jsOrDefault], fun fps => ?_, rfl⟩
  simp only [normalizeMinSceneLength, jsOrDefault, DEFAULT_MIN_SCENE_LENGTH]
  norm_num

/-- C4: every primary-detector failure mode — spawn failure, non-zero exit,
unparseable stdout, explicit error field — makes `detectScenes` resolve or
reject with exactly the fallback path's result, and `detectScenes` rejects
only when the fallback itself rejected. -/
theorem detectScenes_primary_failures_recovered :
    (∀ fb, detectScenesFromOutcome .spawnFailure fb = fb) ∧
    (∀ code parsed fb, code ≠ 0 → detectScenesFromOutcome (.exit code parsed) fb = fb) ∧
    (∀ fb, detectScenesFromOutcome (.exit 0 none) fb = fb) ∧
    (∀ msg scs fb, detectScenesFromOutcome (.exit 0 (some ⟨some msg, scs⟩)) fb = fb) ∧
    (∀ primary fb err, detectScenesFromOutcome primary fb = .error err → fb = .error err) := by
  refine ⟨fun fb => rfl, ?_, fun fb => rfl, fun msg scs fb => rfl, ?_⟩
  · intro code parsed fb hc
    simp [detectScenesFromOutcome, hc]
  · intro primary fb err h
    cases primary with
    | spawnFailure => exact h
    | exit code parsed =>
      by_cases hc : code = 0
      · subst hc
        cases parsed with
        | none => exact h
        | some body =>
          cases hbe : body.error with
          | some e => simpa [detectScenesFromOutcome, hbe] using h
          | none => simp [detectScenesFromOutcome, hbe] at h
      · simpa [detectScenesFromOutcome, hc] using h

/-- Witness for C4, applying the non-zero-exit clause at exit code 1. -/
theorem detectScenes_primary_failures_recovered_witness :
    detectScenesFromOutcome (.exit 1 none) (.ok []) = .ok [] :=
  detectScenes_primary_failures_recovered.2.1 1 none (.ok []) (by decide)

/-- C5 (counterexample): when the primary detector succeeds with a parsed
scene whose `start_frame` is 0, `detectScenes` resolves with that scene
unchanged — the primary path performs none of the clamping/rounding that the
fallback path's post-processing applies, so `start_frame ≥ 1` fails. -/
theorem primary_scenes_not_postprocessed :
    detectScenesFromOutcome
        (.exit 0 (some ⟨none, some [⟨1, 0, 10, 0, 1, 1⟩]⟩)) (.ok []) =
      .ok [⟨1, 0, 10, 0, 1, 1⟩] ∧
    ¬(1 ≤ (Scene.mk 1 0 10 0 1 1).start_frame) := by
  exact ⟨rfl, by decide⟩

/-- C5 (amended): only the fallback path post-processes its scenes. A primary
success resolves with `result.scenes` exactly as parsed, while every scene
emitted by the fallback's `postProcessAll` step satisfies the clamps
`start_frame ≥ 1`, `end_frame ≤ total_frames`, `start_time ≥ 0`,
`end_time ≤ duration`. -/
theorem postprocess_fallback_only :
    (∀ scs fb, detectScenesFromOutcome (.exit 0 (some ⟨none, some scs⟩)) fb = .ok scs) ∧
    (∀ info n l, ∀ s ∈ postProcessAll info n l,
      1 ≤ s.start_frame ∧ s.end_frame ≤ info.total_frames ∧
      0 ≤ s.start_time ∧ s.end_time ≤ info.duration) := by
  constructor
  · intro scs fb
    simp [detectScenesFromOutcome]
  · intro info n l
    induction l generalizing n with
    | nil => intro s hs; simp [postProcessAll] at hs
    | cons r t ih =>
      intro s hs
      simp only [postProcessAll, List.mem_cons] at hs
      rcases hs with hs | hs
      · subst hs
        exact ⟨le_max_left _ _, min_le_left _ _, le_max_left _ _, min_le_left _ _⟩
      · exact ih (n + 1) s hs

/-- Witness for C5's amended theorem, at a concrete fallback post-processing
run over one raw scene that needs both clamps. -/
theorem postprocess_fallback_only_witness :
    1 ≤ (Scene.mk 1 1 5 0 5 10).start_frame ∧
    (Scene.mk 1 1 5 0 5 10).end_frame ≤ (VideoInfo.mk 5 1 0 0 5).total_frames ∧
    0 ≤ (Scene.mk 1 1 5 0 5 10).start_time ∧
    (Scene.mk 1 1 5 0 5 10).end_time ≤ (VideoInfo.mk 5 1 0 0 5).duration :=
  postprocess_fallback_only.2 ⟨5, 1, 0, 0, 5⟩ 0 [⟨1, 10, 0, 10⟩] ⟨1, 1, 5, 0, 5, 10⟩
    (by norm_num [postProcessAll, postProcessScene, round3, round_eq, Scene.mk.injEq])

/-- C3 (counterexample): a 100-frame video (fps 1, minimum scene length 30 s)
whose content-difference signal reports one boundary at 90 s makes the primary
fail over to the fallback, which returns the single scene `[1, 90]`: the
trailing scene `[91, 100]` is dropped because it is shorter than half the
minimum length while another scene exists, so the returned list does not
cover `[1, total_frames]` — its last scene ends at 90, not 100. -/
theorem detectScenes_gap_at_end :
    detectScenesFromOutcome .spawnFailure
        (.ok (fallbackDetectScenes 30 1 [⟨90, 1/2⟩] ⟨100, 1, 0, 0, 100⟩)) =
      .ok [⟨1, 1, 90, 0, 90, 90⟩] ∧
    (VideoInfo.mk 100 1 0 0 100).total_frames = 100 ∧
    (Scene.mk 1 1 90 0 90 90).end_frame ≠ 100 := by
  refine ⟨?_, rfl, by decide⟩
  show Except.ok _ = _
  norm_num [fallbackDetectScenes, detectScenesFFmpeg, ffmpegLoop, postProcessAll,
    postProcessScene, round3, round_eq]

/-- C3 (amended): for any threshold, non-negative minimum scene length, fps
and signal, on a video with at least one frame the raw scene list produced by
the FFmpeg fallback detector is non-empty, its first scene starts at frame 1,
every scene has `start_frame ≤ end_frame`, and each scene starts exactly one
frame after its predecessor ends; however the last scene may stop short of
`total_frames` (and, as its own counterexample shows, primary-path success
gives no coverage guarantee at all), so gapless coverage of
`[1, total_frames]` does not hold in general. -/
theorem detectScenesFFmpeg_structure (th : ℚ) (minLen : Int) (fps : ℚ)
    (signal : List SignalSample) (info : VideoInfo)
    (hmin : 0 ≤ minLen) (htot : 1 ≤ info.total_frames) :
    detectScenesFFmpeg th minLen fps signal info ≠ [] ∧
    startsAtOne (detectScenesFFmpeg th minLen fps signal info) = true ∧
    contiguous (detectScenesFFmpeg th minLen fps signal info) = true ∧
    (detectScenesFFmpeg th minLen fps signal info).all sceneOrdered = true := by
  obtain ⟨hr1, hr2, hr3, hr4, hr5, hr6⟩ :=
    ffmpegLoop_inv th minLen fps hmin signal 1 [] le_rfl (fun _ => rfl)
      (fun h => absurd rfl h) rfl rfl (fun x hx => by simp at hx)
  set r := ffmpegLoop th minLen fps 1 [] signal with hrdef
  simp only [detectScenesFFmpeg, ← hrdef]
  split
  case isTrue h =>
    set x : RawScene :=
      { start_frame := (r.2 : ℚ), end_frame := (info.total_frames : ℚ),
        start_time := ((r.2 : ℚ) - 1) / fps, end_time := info.duration } with hxdef
    have hordx : sceneOrdered x = true := by
      have hle : r.2 ≤ info.total_frames := by
        rcases h with h | h
        · have h0 : (0 : ℚ) ≤ ((info.total_frames - r.2 : Int) : ℚ) := by
            refine le_trans ?_ h
            positivity
          have : (0 : Int) ≤ info.total_frames - r.2 := by exact_mod_cast h0
          omega
        · have := hr2 h
          omega
      have : (r.2 : ℚ) ≤ (info.total_frames : ℚ) := by exact_mod_cast hle
      simp [sceneOrdered, hxdef, this]
    refine ⟨by simp, ?_, ?_, ?_⟩
    · cases hacc : r.1 with
      | nil =>
        have h21 : r.2 = 1 := hr2 hacc
        simp [hacc, startsAtOne, hxdef, h21]
      | cons a t =>
        have hst := hr3 (by simp [hacc])
        rw [hacc] at hst
        exact startsAtOne_concat _ _ hst
    · apply contiguous_concat _ _ hr4
      intro y hy
      have := hr6 y hy
      rw [hxdef]
      simp only
      rw [this]
      ring
    · rw [List.all_append, Bool.and_eq_true]
      exact ⟨hr5, by simp [hordx]⟩
  case isFalse h =>
    push_neg at h
    exact ⟨h.2, hr3 h.2, hr4, hr5⟩

/-- Witness for C3's amended theorem, on the fallback's own threshold and the
counterexample's video and signal. -/
theorem detectScenesFFmpeg_structure_witness :
    detectScenesFFmpeg (3/10) 30 1 [⟨90, 1/2⟩] ⟨100, 1, 0, 0, 100⟩ ≠ [] ∧
    startsAtOne (detectScenesFFmpeg (3/10) 30 1 [⟨90, 1/2⟩] ⟨100, 1, 0, 0, 100⟩) = true ∧
    contiguous (detectScenesFFmpeg (3/10) 30 1 [⟨90, 1/2⟩] ⟨100, 1, 0, 0, 100⟩) = true ∧
    (detectScenesFFmpeg (3/10) 30 1 [⟨90, 1/2⟩] ⟨100, 1, 0, 0, 100⟩).all sceneOrdered = true :=
  detectScenesFFmpeg_structure (3/10) 30 1 [⟨90, 1/2⟩] ⟨100, 1, 0, 0, 100⟩
    (by norm_num) (by norm_num)

/-- C8 (counterexample): a signal sample with score `0.5` — which does not
exceed the orchestrator's (default) threshold of 20 — still produces a scene
boundary in the fallback path (two scenes, split at frame 60/61), because the
fallback invokes `detectScenesFFmpeg` with the fixed threshold `0.3`, not
with the threshold supplied to the orchestrator. -/
theorem fallback_threshold_fixed :
    fallbackDetectScenes 30 1 [⟨60, 1/2⟩] ⟨100, 1, 0, 0, 100⟩ =
      [⟨1, 1, 60, 0, 60, 60⟩, ⟨2, 61, 100, 60, 100, 40⟩] ∧
    ¬(orchestratorThreshold none < 1/2) ∧
    (3/10 : ℚ) < 1/2 := by
  refine ⟨?_, ?_, by norm_num⟩
  · norm_num [fallbackDetectScenes, detectScenesFFmpeg, ffmpegLoop, postProcessAll,
      postProcessScene, round3, round_eq]
  · norm_num [orchestratorThreshold, jsOrDefault, DEFAULT_THRESHOLD]

/-- C8 (amended): the fallback consumes the signal with the fixed threshold
`0.3` and `minSceneLengthFrames = round(minSceneLengthSeconds × fps)`, and its
loop places a boundary at a sample exactly when the sample's score exceeds
that threshold and its frame `round(pts_time × fps)` is at least
`minSceneLengthFrames` past the last boundary — closing the current scene at
that frame and opening the next at the following frame. -/
theorem fallback_boundary_rule :
    (∀ th minLen fps (s : SignalSample) rest last acc,
      ffmpegLoop th minLen fps last acc (s :: rest) =
        if th < s.score ∧ minLen ≤ round (s.ptsTime * fps) - last then
          ffmpegLoop th minLen fps (round (s.ptsTime * fps) + 1)
            (acc ++ [{ start_frame := (last : ℚ),
                       end_frame := ((round (s.ptsTime * fps) : Int) : ℚ),
                       start_time := ((last : ℚ) - 1) / fps, end_time := s.ptsTime }]) rest
        else ffmpegLoop th minLen fps last acc rest) ∧
    (∀ sec fps signal info, fallbackDetectScenes sec fps signal info =
      postProcessAll info 0 (detectScenesFFmpeg (3/10) (round (sec * fps)) fps signal info)) := by
  constructor
  · intro th minLen fps s rest last acc
    by_cases hsc : th < s.score
    · by_cases hlen : minLen ≤ round (s.ptsTime * fps) - last
      · simp [ffmpegLoop, hsc, hlen]
      · simp [ffmpegLoop, hsc, hlen]
    · simp [ffmpegLoop, hsc]
  · intro sec fps signal info
    rfl

/-- C9 (counterexample): a fallback run whose raw scene reaches `pts_time`
10 s in a video whose reported duration is 5 s returns the scene with clamped
`end_time = 5` and `start_time = 0` but `duration = 10`: the duration is
computed from the pre-clamp times, and differs from
`end_time − start_time` of the returned (clamped) values. -/
theorem duration_uses_preclamp_times :
    fallbackDetectScenes 3 1 [⟨10, 1/2⟩] ⟨5, 1, 0, 0, 5⟩ = [⟨1, 1, 5, 0, 5, 10⟩] ∧
    (Scene.mk 1 1 5 0 5 10).duration ≠
      (Scene.mk 1 1 5 0 5 10).end_time - (Scene.mk 1 1 5 0 5 10).start_time := by
  refine ⟨?_, by norm_num⟩
  norm_num [fallbackDetectScenes, detectScenesFFmpeg, ffmpegLoop, postProcessAll,
    postProcessScene, round3, round_eq]

/-- C9 (amended): every scene emitted by the fallback's post-processing step
carries `duration = round3(raw end_time − raw start_time)`, computed from the
raw pre-clamp times of its source scene, while `start_time` and `end_time`
are the clamped, millisecond-rounded values — so `duration` need not equal
the difference of the returned times. -/
theorem duration_from_raw_times (info : VideoInfo) :
    ∀ n l, ∀ s ∈ postProcessAll info n l, ∃ r ∈ l,
      s.duration = round3 (r.end_time - r.start_time) ∧
      s.start_time = max 0 (round3 r.start_time) ∧
      s.end_time = min info.duration (round3 r.end_time) := by
  intro n l
  induction l generalizing n with
  | nil => intro s hs; simp [postProcessAll] at hs
  | cons r t ih =>
    intro s hs
    simp only [postProcessAll, List.mem_cons] at hs
    rcases hs with hs | hs
    · exact ⟨r, by simp, by subst hs; exact ⟨rfl, rfl, rfl⟩⟩
    · obtain ⟨r', hr', h⟩ := ih (n + 1) s hs
      exact ⟨r', by simp [hr'], h⟩

/-- Witness for C9's amended theorem, at the counterexample's raw scene. -/
theorem duration_from_raw_times_witness :
    ∃ r ∈ [RawScene.mk 1 10 0 10],
      (Scene.mk 1 1 5 0 5 10).duration = round3 (r.end_time - r.start_time) ∧
      (Scene.mk 1 1 5 0 5 10).start_time = max 0 (round3 r.start_time) ∧
      (Scene.mk 1 1 5 0 5 10).end_time = min (VideoInfo.mk 5 1 0 0 5).duration (round3 r.end_time) :=
  duration_from_raw_times ⟨5, 1, 0, 0, 5⟩ 0 [⟨1, 10, 0, 10⟩] ⟨1, 1, 5, 0, 5, 10⟩
    (by norm_num [postProcessAll, postProcessScene, round3, round_eq, Scene.mk.injEq])

end SceneDetector
